import Mathlib

/-!
Shallow embedding of the contact-book service (FastAPI/SQLAlchemy app):
* `src/schemas.py` — field validators for `contact_number` and `birth_date`;
* `src/repository/contacts.py` — repository operations over the contact table;
* `src/routes/contacts.py` — the route-level update handler with its
  existence and uniqueness checks.

The database table is modelled as a `List Contact` in insertion order;
a SQLAlchemy `query(...).offset(skip).limit(limit).all()` becomes
`(db.drop skip).take limit`, `.filter(p).first()` becomes `db.find? p`,
and raising `HTTPException(status_code = n)` becomes `Except.error n`.
-/

/-- A Python `datetime.date`: comparison on `date` objects is lexicographic
on `(year, month, day)`. -/
structure PyDate where
  year : Nat
  month : Nat
  day : Nat
deriving DecidableEq, Repr

/-- Python `a < b` on `date` values: lexicographic on (year, month, day). -/
def dateLt (a b : PyDate) : Bool :=
  decide (a.year < b.year) ||
    (decide (a.year = b.year) &&
      (decide (a.month < b.month) ||
        (decide (a.month = b.month) && decide (a.day < b.day))))

/-- Python `a <= b` on `date` values: lexicographic on (year, month, day). -/
def dateLe (a b : PyDate) : Bool :=
  decide (a.year < b.year) ||
    (decide (a.year = b.year) &&
      (decide (a.month < b.month) ||
        (decide (a.month = b.month) && decide (a.day ≤ b.day))))

/-- A row of the `contacts` table (`src/database/models.py` fields as used by
the code under verification). -/
structure Contact where
  id : Nat
  first_name : String
  last_name : String
  email : String
  contact_number : String
  birth_date : PyDate
  additional_information : String
deriving DecidableEq, Repr

/-- The request body `ContactModel` (`src/schemas.py`): all fields of a
contact except the storage-assigned `id`. -/
structure ContactModel where
  first_name : String
  last_name : String
  email : String
  contact_number : String
  birth_date : PyDate
  additional_information : String
deriving DecidableEq, Repr

/-! ## Phone-number validation (`src/schemas.py`, `validate_contact_number`)

The validator accepts `value` iff it matches the Python regex
`^(\+\d{1,2}\s)?\(?\d{3}\)?[\s.-]\d{3}[\s.-]\d{4}$` (via `re.match`).
Every character class in the regex is disjoint from the characters that may
follow an optional element, so the regex is matched deterministically by the
recognizer below.  `\s` is modelled by its ASCII cases (all inputs in the
claims are ASCII); `$` matches at the end of the string or before a single
trailing newline, as in Python. -/

/-- `\d` on the ASCII range. -/
def isPyDigit (c : Char) : Bool := decide ('0' ≤ c) && decide (c ≤ '9')

/-- `\s` on the ASCII range: space, tab, newline, vertical tab, form feed,
carriage return. -/
def isPySpace (c : Char) : Bool :=
  c = ' ' || c = '\t' || c = '\n' || c = '\x0b' || c = '\x0c' || c = '\r'

/-- The class `[\s.-]`: the group separators the regex allows. -/
def isSepChar (c : Char) : Bool := isPySpace c || c = '.' || c = '-'

/-- Consume exactly `n` digits. -/
def takeDigits : Nat → List Char → Option (List Char)
  | 0, cs => some cs
  | n + 1, c :: cs => if isPyDigit c then takeDigits n cs else none
  | _ + 1, [] => none

/-- Consume one `[\s.-]` separator. -/
def takeSep : List Char → Option (List Char)
  | c :: cs => if isSepChar c then some cs else none
  | [] => none

/-- `\(?` — optionally consume an opening parenthesis. -/
def dropParenOpen : List Char → List Char
  | [] => []
  | c :: cs => if c = '(' then cs else c :: cs

/-- `\)?` — optionally consume a closing parenthesis. -/
def dropParenClose : List Char → List Char
  | [] => []
  | c :: cs => if c = ')' then cs else c :: cs

/-- `$` in Python: end of string, or a lone trailing newline. -/
def atEnd : List Char → Bool
  | [] => true
  | ['\n'] => true
  | _ => false

/-- `(\+\d{1,2}\s)?` — the optional country code.  If the string starts with
`+`, the group must match (greedily: two digits when the second character is
a digit, else one), since no later regex element can consume a `+`. -/
def matchCountryCode : List Char → Option (List Char)
  | [] => some []
  | c :: cs =>
    if c = '+' then
      match cs with
      | c1 :: rest =>
        if isPyDigit c1 then
          match rest with
          | c2 :: rest2 =>
            if isPyDigit c2 then
              match rest2 with
              | s :: rest3 => if isPySpace s then some rest3 else none
              | [] => none
            else if isPySpace c2 then some rest2
            else none
          | [] => none
        else none
      | [] => none
    else some (c :: cs)

/-- `\(?\d{3}\)?[\s.-]\d{3}[\s.-]\d{4}$` — the body of the regex after the
optional country code. -/
def matchBody (cs : List Char) : Bool :=
  match takeDigits 3 (dropParenOpen cs) with
  | none => false
  | some cs1 =>
    match takeSep (dropParenClose cs1) with
    | none => false
    | some cs2 =>
      match takeDigits 3 cs2 with
      | none => false
      | some cs3 =>
        match takeSep cs3 with
        | none => false
        | some cs4 =>
          match takeDigits 4 cs4 with
          | none => false
          | some cs5 => atEnd cs5

/-- The full regex `^(\+\d{1,2}\s)?\(?\d{3}\)?[\s.-]\d{3}[\s.-]\d{4}$`. -/
def matchPhone (cs : List Char) : Bool :=
  match matchCountryCode cs with
  | none => false
  | some rest => matchBody rest

/-- `validate_contact_number` (`src/schemas.py` lines 14–27): accept the
value when the regex matches, otherwise raise `ValueError`. -/
def validate_contact_number (value : String) : Except String String :=
  if matchPhone value.data then Except.ok value
  else Except.error "Invalid contact number"

/-- `validate_birth_date` (`src/schemas.py` lines 29–34): reject a birth
date strictly after today, accept otherwise.  `today` is the date the
validation runs (`date.today()` in the source), passed explicitly. -/
def validate_birth_date (today : PyDate) (value : PyDate) : Except String PyDate :=
  if dateLt today value then
    Except.error "Invalid birth date. Birth date cannot be in the future."
  else Except.ok value

/-! ## Birthday window (`src/repository/contacts.py`, `upcoming_birthdays`) -/

/-- The `(month, day)` tuple the loop builds for a date. -/
def month_day (d : PyDate) : Nat × Nat := (d.month, d.day)

/-- Python `<` on a pair of 2-tuples: lexicographic. -/
def tupleLt (a b : Nat × Nat) : Bool :=
  decide (a.1 < b.1) || (decide (a.1 = b.1) && decide (a.2 < b.2))

/-- Python `<=` on a pair of 2-tuples: lexicographic. -/
def tupleLe (a b : Nat × Nat) : Bool :=
  decide (a.1 < b.1) || (decide (a.1 = b.1) && decide (a.2 ≤ b.2))

/-- The chained comparison guarding the append (line 102):
`current_date_month_day < contact_birthday_month_day <= to_date_month_day`. -/
def inWindow (current_date to_date : PyDate) (contact : Contact) : Bool :=
  tupleLt (month_day current_date) (month_day contact.birth_date) &&
    tupleLe (month_day contact.birth_date) (month_day to_date)

/-- The `for contact in contacts` loop (lines 94–105), which appends the
contacts passing the window test in input order. -/
def birthdayLoop (current_date to_date : PyDate) : List Contact → List Contact
  | [] => []
  | contact :: rest =>
    if inWindow current_date to_date contact then
      contact :: birthdayLoop current_date to_date rest
    else birthdayLoop current_date to_date rest

/-- `upcoming_birthdays` (lines 91–105): the paged query
`db.query(Contact).offset(skip).limit(limit).all()` followed by the window
loop. -/
def upcoming_birthdays (current_date to_date : PyDate) (skip limit : Nat)
    (db : List Contact) : List Contact :=
  birthdayLoop current_date to_date ((db.drop skip).take limit)

/-! ## Repository operations (`src/repository/contacts.py`) -/

/-- `get_contacts` (lines 10–11): `offset(skip).limit(limit).all()`. -/
def get_contacts (skip limit : Nat) (db : List Contact) : List Contact :=
  (db.drop skip).take limit

/-- `find_contact_by_first_name` (lines 53–61): all rows with this first
name; an empty result raises 404. -/
def find_contact_by_first_name (contact_first_name : String)
    (db : List Contact) : Except Nat (List Contact) :=
  let contact := db.filter (fun c => c.first_name = contact_first_name)
  if contact.isEmpty then Except.error 404 else Except.ok contact

/-- `find_contact_by_last_name` (lines 64–72). -/
def find_contact_by_last_name (contact_last_name : String)
    (db : List Contact) : Except Nat (List Contact) :=
  let contact := db.filter (fun c => c.last_name = contact_last_name)
  if contact.isEmpty then Except.error 404 else Except.ok contact

/-- `find_contact_by_email` (lines 75–83). -/
def find_contact_by_email (contact_email : String)
    (db : List Contact) : Except Nat (List Contact) :=
  let contact := db.filter (fun c => c.email = contact_email)
  if contact.isEmpty then Except.error 404 else Except.ok contact

/-- Overwrite every mutable field of a stored row with the request body, as
the assignments in repository `update_contact` (lines 35–40) do. -/
def applyBody (c : Contact) (body : ContactModel) : Contact :=
  { c with
    first_name := body.first_name
    last_name := body.last_name
    email := body.email
    contact_number := body.contact_number
    birth_date := body.birth_date
    additional_information := body.additional_information }

/-- Replace the first row satisfying `p` (the row `.first()` returned and
the loop mutated in place). -/
def replaceFirst (p : Contact → Bool) (new : Contact) :
    List Contact → List Contact
  | [] => []
  | c :: cs => if p c then new :: cs else c :: replaceFirst p new cs

namespace repository

/-- Repository `update_contact` (`src/repository/contacts.py` lines 32–42):
look up the row by id; when present, overwrite its fields and commit;
return the (possibly absent) row together with the table state after the
call. -/
def update_contact (contact_id : Nat) (body : ContactModel)
    (db : List Contact) : Option Contact × List Contact :=
  match db.find? (fun c => c.id = contact_id) with
  | none => (none, db)
  | some c =>
    let updated := applyBody c body
    (some updated, replaceFirst (fun x => x.id = contact_id) updated db)

end repository

namespace routes

/-- Route `update_contact` (`src/routes/contacts.py` lines 87–111):
1. look up the row by id — absent raises 404;
2. look up any row holding the submitted email — present raises 409;
3. look up any row holding the submitted contact number — present raises 409;
4. otherwise delegate to the repository update and return its row.
Returns the HTTP outcome together with the table state after the call. -/
def update_contact (contact_id : Nat) (body : ContactModel)
    (db : List Contact) : Except Nat (Option Contact) × List Contact :=
  match db.find? (fun c => c.id = contact_id) with
  | none => (Except.error 404, db)
  | some _ =>
    if (db.find? (fun c => c.email = body.email)).isSome then
      (Except.error 409, db)
    else if (db.find? (fun c => c.contact_number = body.contact_number)).isSome then
      (Except.error 409, db)
    else
      let r := repository.update_contact contact_id body db
      (Except.ok r.1, r.2)

end routes

/-! ## Helper lemmas and example rows -/

/-- The window loop is the stable filter by the window test. -/
lemma birthdayLoop_eq_filter (current_date to_date : PyDate) (l : List Contact) :
    birthdayLoop current_date to_date l = l.filter (inWindow current_date to_date) := by
  induction l with
  | nil => rfl
  | cons c rest ih =>
    simp only [birthdayLoop, List.filter_cons]
    by_cases hc : inWindow current_date to_date c
    · simp [hc, ih]
    · simp [hc, ih]

/-- `a < b` is false on dates exactly when `b <= a` holds (Python total order). -/
lemma dateLt_false_iff_dateLe (a b : PyDate) : dateLt a b = false ↔ dateLe b a = true := by
  simp [dateLt, dateLe]
  omega

/-- A stored row used by the concrete instances below. -/
def annRow : Contact :=
  ⟨1, "Ann", "Lee", "ann@example.com", "123-456-7890", ⟨2000, 1, 1⟩, "note"⟩

/-- An update body carrying `annRow`'s own email and phone number. -/
def annBody : ContactModel :=
  ⟨"Ann", "Lee", "ann@example.com", "123-456-7890", ⟨2000, 1, 1⟩, "edited note"⟩

/-- Contact with birthday June 10. -/
def juneTenth : Contact :=
  ⟨1, "Jun", "Ten", "jun10@example.com", "223-456-7890", ⟨1990, 6, 10⟩, "i"⟩

/-- Contact with birthday June 20. -/
def juneTwentieth : Contact :=
  ⟨2, "Jun", "Twe", "jun20@example.com", "323-456-7890", ⟨1991, 6, 20⟩, "i"⟩

/-- Contact with birthday December 31. -/
def decThirtyFirst : Contact :=
  ⟨3, "Dec", "Thi", "dec31@example.com", "423-456-7890", ⟨1992, 12, 31⟩, "i"⟩

/-- Contact with birthday January 2. -/
def janSecond : Contact :=
  ⟨4, "Jan", "Sec", "jan2@example.com", "523-456-7890", ⟨1995, 1, 2⟩, "i"⟩

/-- The route-level update on an id held by no stored row is a 404 with the
table unchanged. -/
lemma routes_update_absent (contact_id : Nat) (body : ContactModel)
    (db : List Contact) (habs : ∀ c ∈ db, c.id ≠ contact_id) :
    routes.update_contact contact_id body db = (Except.error 404, db) := by
  have hnone : db.find? (fun c => c.id = contact_id) = none := by
    rw [List.find?_eq_none]
    intro c hc
    simp [habs c hc]
  simp [routes.update_contact, hnone]

/-- The repository update on an id held by no stored row returns no row and
leaves the table unchanged. -/
lemma repo_update_absent (contact_id : Nat) (body : ContactModel)
    (db : List Contact) (habs : ∀ c ∈ db, c.id ≠ contact_id) :
    repository.update_contact contact_id body db = (none, db) := by
  have hnone : db.find? (fun c => c.id = contact_id) = none := by
    rw [List.find?_eq_none]
    intro c hc
    simp [habs c hc]
  simp [repository.update_contact, hnone]

/-! ## The claims -/

/-- C1: the birthday-window calculator is the stable filter keeping exactly
the contacts whose (birth month, birth day) is strictly above the current
date's (month, day) and at or below the to-date's (month, day) under
lexicographic tuple comparison, preserving input order; on birthdays (6,10),
(6,20), (12,31) with current date 2024-06-15 and to-date 2024-06-22 only the
(6,20) contact is returned. -/
theorem C1_birthday_window :
    (∀ (current_date to_date : PyDate) (contacts : List Contact),
        birthdayLoop current_date to_date contacts =
          contacts.filter (inWindow current_date to_date)) ∧
    (∀ (current_date to_date : PyDate) (c : Contact),
        inWindow current_date to_date c = true ↔
          ((current_date.month < c.birth_date.month ∨
              (current_date.month = c.birth_date.month ∧
                current_date.day < c.birth_date.day)) ∧
            (c.birth_date.month < to_date.month ∨
              (c.birth_date.month = to_date.month ∧
                c.birth_date.day ≤ to_date.day)))) ∧
    upcoming_birthdays ⟨2024, 6, 15⟩ ⟨2024, 6, 22⟩ 0 100
        [juneTenth, juneTwentieth, decThirtyFirst] = [juneTwentieth] := by
  refine ⟨birthdayLoop_eq_filter, ?_, by decide⟩
  intro current_date to_date c
  simp only [inWindow, tupleLt, tupleLe, month_day, Bool.and_eq_true,
    Bool.or_eq_true, decide_eq_true_eq]

/-- C2 counterexample: the claim says a self-match is not a conflict and the
update succeeds, but updating `annRow` (id 1) with its own email and phone
number is rejected with 409 and no write happens. -/
theorem C2_counterexample :
    routes.update_contact 1 annBody [annRow] = (Except.error 409, [annRow]) := by
  rfl

/-- C2 (amended): on update of an existing id, any stored row holding the
submitted email or phone number is reported as a conflict (409) regardless of
whether it is the row being updated; in particular a self-match is a conflict
and the update is rejected with the table unchanged. -/
theorem C2_conflict_includes_self (contact_id : Nat) (body : ContactModel)
    (db : List Contact)
    (hex : ∃ c ∈ db, c.id = contact_id)
    (hdup : ∃ c ∈ db, c.email = body.email ∨ c.contact_number = body.contact_number) :
    (routes.update_contact contact_id body db).1 = Except.error 409 ∧
    (routes.update_contact contact_id body db).2 = db := by
  have hfind : (db.find? (fun c => c.id = contact_id)).isSome := by
    rw [List.find?_isSome]
    obtain ⟨c, hc, he⟩ := hex
    exact ⟨c, hc, by simp [he]⟩
  obtain ⟨cfound, hcfound⟩ := Option.isSome_iff_exists.mp hfind
  by_cases hemail : (db.find? (fun c => c.email = body.email)) = none
  · have hno : ∀ c ∈ db, c.email ≠ body.email := by
      rw [List.find?_eq_none] at hemail
      intro c hc
      simpa using hemail c hc
    obtain ⟨c, hc, hor⟩ := hdup
    have hnum : c.contact_number = body.contact_number := by
      rcases hor with h | h
      · exact absurd h (hno c hc)
      · exact h
    have hfnum : (db.find? (fun c => c.contact_number = body.contact_number)).isSome := by
      rw [List.find?_isSome]
      exact ⟨c, hc, by simp [hnum]⟩
    constructor
    · simp [routes.update_contact, hcfound, hemail, hfnum]
    · simp [routes.update_contact, hcfound, hemail, hfnum]
  · have hsome : (db.find? (fun c => c.email = body.email)).isSome := by
      cases hfe : db.find? (fun c => c.email = body.email) with
      | none => exact absurd hfe hemail
      | some c => simp
    constructor
    · simp [routes.update_contact, hcfound, hsome]
    · simp [routes.update_contact, hcfound, hsome]

/-- C2 witness: the amended statement at the self-match instance. -/
theorem C2_conflict_includes_self_witness :
    (routes.update_contact 1 annBody [annRow]).1 = Except.error 409 ∧
    (routes.update_contact 1 annBody [annRow]).2 = [annRow] :=
  C2_conflict_includes_self 1 annBody [annRow]
    ⟨annRow, by decide, by decide⟩ ⟨annRow, by decide, Or.inl (by decide)⟩

/-- C3 counterexample: the claim says a candidate mixing two different
separators is rejected, but "123.456-7890" (dot then dash) is accepted. -/
theorem C3_counterexample :
    validate_contact_number "123.456-7890" = Except.ok "123.456-7890" := by
  rfl

/-- C3 (amended): the two separator positions are filled independently from
the class {whitespace, dot, dash}: any pair drawn from the class is accepted,
mixed pairs included, and an accepted candidate of the plain three-group
shape has a class separator in both positions. -/
theorem C3_separators_independent (s1 s2 : Char)
    (h1 : isSepChar s1 = true) (h2 : isSepChar s2 = true) :
    validate_contact_number
        (String.mk ['1', '2', '3', s1, '4', '5', '6', s2, '7', '8', '9', '0']) =
      Except.ok
        (String.mk ['1', '2', '3', s1, '4', '5', '6', s2, '7', '8', '9', '0']) ∧
    (∀ t1 t2 : Char,
        matchPhone ['1', '2', '3', t1, '4', '5', '6', t2, '7', '8', '9', '0'] = true →
          isSepChar t1 = true ∧ isSepChar t2 = true) := by
  constructor
  · have hp1 : ¬ s1 = ')' := by
      rintro rfl
      simp [isSepChar, isPySpace] at h1
    simp [validate_contact_number, matchPhone, matchCountryCode, matchBody,
      dropParenOpen, dropParenClose, takeDigits, takeSep, isPyDigit, atEnd, h1, h2, hp1]
  · intro t1 t2 h
    by_cases hq1 : t1 = ')'
    · subst hq1
      exact absurd h (by simp [matchPhone, matchCountryCode, matchBody, dropParenOpen,
        dropParenClose, takeDigits, takeSep, isPyDigit, isSepChar, isPySpace])
    · by_cases hs1 : isSepChar t1 = true
      · refine ⟨hs1, ?_⟩
        by_cases hs2 : isSepChar t2 = true
        · exact hs2
        · exact absurd h (by simp [matchPhone, matchCountryCode, matchBody, dropParenOpen,
            dropParenClose, takeDigits, takeSep, isPyDigit, hq1, hs1, hs2])
      · exact absurd h (by simp [matchPhone, matchCountryCode, matchBody, dropParenOpen,
          dropParenClose, takeDigits, takeSep, isPyDigit, hq1, hs1])

/-- C3 witness: the amended statement at the mixed pair dot/dash. -/
theorem C3_separators_independent_witness :
    isSepChar '.' = true ∧ isSepChar '-' = true ∧
    validate_contact_number
        (String.mk ['1', '2', '3', '.', '4', '5', '6', '-', '7', '8', '9', '0']) =
      Except.ok
        (String.mk ['1', '2', '3', '.', '4', '5', '6', '-', '7', '8', '9', '0']) :=
  ⟨by decide, by decide,
    (C3_separators_independent '.' '-' (by decide) (by decide)).1⟩

/-- C4: when the window spans a year boundary (to-date month below the
current month), a contact whose birth month is at or below the to-date month
(an early-January birthday for a Dec 29 → Jan 5 window) is never returned,
because its (month, day) tuple is not strictly greater than the current
date's tuple. -/
theorem C4_year_boundary_excludes_january (current_date to_date : PyDate)
    (skip limit : Nat) (db : List Contact) (c : Contact)
    (hspan : to_date.month < current_date.month)
    (hearly : c.birth_date.month ≤ to_date.month) :
    c ∉ upcoming_birthdays current_date to_date skip limit db := by
  intro hmem
  rw [upcoming_birthdays, birthdayLoop_eq_filter] at hmem
  have hw := (List.mem_filter.mp hmem).2
  simp [inWindow, tupleLt, tupleLe, month_day] at hw
  omega

/-- C4 witness: the January 2 contact is not returned for the
Dec 29 → Jan 5 window even though it is stored. -/
theorem C4_year_boundary_witness :
    (1 : Nat) < 12 ∧ (2 : Nat) ≤ 5 ∧
    janSecond ∉ upcoming_birthdays ⟨2024, 12, 29⟩ ⟨2025, 1, 5⟩ 0 100 [janSecond] :=
  ⟨by decide, by decide,
    C4_year_boundary_excludes_january ⟨2024, 12, 29⟩ ⟨2025, 1, 5⟩ 0 100
      [janSecond] janSecond (by decide) (by decide)⟩

/-- C5: pagination is applied to the raw stored list before the window
filter: the result is filter(window, page(skip, limit, db)); at skip 0,
limit 1 over a page whose only element fails the window test the result is
empty, while page(skip, limit, filter(window, db)) would return the June 20
contact. -/
theorem C5_pagination_before_filter :
    (∀ (current_date to_date : PyDate) (skip limit : Nat) (db : List Contact),
        upcoming_birthdays current_date to_date skip limit db =
          ((db.drop skip).take limit).filter (inWindow current_date to_date)) ∧
    upcoming_birthdays ⟨2024, 6, 15⟩ ⟨2024, 6, 22⟩ 0 1 [juneTenth, juneTwentieth] = [] ∧
    (([juneTenth, juneTwentieth].filter
          (inWindow ⟨2024, 6, 15⟩ ⟨2024, 6, 22⟩)).drop 0).take 1 =
      [juneTwentieth] := by
  refine ⟨?_, by decide, by decide⟩
  intro current_date to_date skip limit db
  exact birthdayLoop_eq_filter current_date to_date ((db.drop skip).take limit)

/-- C6: the five documented phone layouts are accepted and the two
documented bad layouts are rejected. -/
theorem C6_phone_examples :
    validate_contact_number "123-456-7890" = Except.ok "123-456-7890" ∧
    validate_contact_number "(123) 456-7890" = Except.ok "(123) 456-7890" ∧
    validate_contact_number "123 456 7890" = Except.ok "123 456 7890" ∧
    validate_contact_number "123.456.7890" = Except.ok "123.456.7890" ∧
    validate_contact_number "+12 (345) 678-9012" = Except.ok "+12 (345) 678-9012" ∧
    validate_contact_number "1234567890" = Except.error "Invalid contact number" ∧
    validate_contact_number "123-45-6789" = Except.error "Invalid contact number" :=
  ⟨rfl, rfl, rfl, rfl, rfl, rfl, rfl⟩

/-- C7: birth-date validation with a given today accepts exactly the values
at or before today in the date order, and in particular accepts today itself
and rejects the following day. -/
theorem C7_birth_date_not_future :
    (∀ today value : PyDate,
        validate_birth_date today value = Except.ok value ↔
          dateLe value today = true) ∧
    validate_birth_date ⟨2024, 6, 15⟩ ⟨2024, 6, 15⟩ = Except.ok ⟨2024, 6, 15⟩ ∧
    validate_birth_date ⟨2024, 6, 15⟩ ⟨2024, 6, 16⟩ =
      Except.error "Invalid birth date. Birth date cannot be in the future." := by
  refine ⟨?_, by rfl, by rfl⟩
  intro today value
  cases hb : dateLt today value with
  | false => simp [validate_birth_date, hb, (dateLt_false_iff_dateLe today value).mp hb]
  | true =>
    simp only [validate_birth_date, hb, if_true]
    constructor
    · intro h
      exact absurd h (by simp)
    · intro h
      rw [← dateLt_false_iff_dateLe, hb] at h
      cases h

/-- C8: each find-by operation on a query value no stored row holds raises
404, while the list operation with a skip at or beyond the table size
returns the plain empty list. -/
theorem C8_find_empty_vs_list_empty :
    (∀ (q : String) (db : List Contact), (∀ c ∈ db, c.first_name ≠ q) →
        find_contact_by_first_name q db = Except.error 404) ∧
    (∀ (q : String) (db : List Contact), (∀ c ∈ db, c.last_name ≠ q) →
        find_contact_by_last_name q db = Except.error 404) ∧
    (∀ (q : String) (db : List Contact), (∀ c ∈ db, c.email ≠ q) →
        find_contact_by_email q db = Except.error 404) ∧
    (∀ (skip limit : Nat) (db : List Contact), db.length ≤ skip →
        get_contacts skip limit db = []) := by
  refine ⟨?_, ?_, ?_, ?_⟩
  · intro q db hq
    have hfil : db.filter (fun c => c.first_name = q) = [] := by
      rw [List.filter_eq_nil_iff]
      intro c hc
      simp [hq c hc]
    simp [find_contact_by_first_name, hfil]
  · intro q db hq
    have hfil : db.filter (fun c => c.last_name = q) = [] := by
      rw [List.filter_eq_nil_iff]
      intro c hc
      simp [hq c hc]
    simp [find_contact_by_last_name, hfil]
  · intro q db hq
    have hfil : db.filter (fun c => c.email = q) = [] := by
      rw [List.filter_eq_nil_iff]
      intro c hc
      simp [hq c hc]
    simp [find_contact_by_email, hfil]
  · intro skip limit db h
    simp [get_contacts, List.drop_eq_nil_of_le h]

/-- C8 witness: a miss on email raises 404 while a skip past the one-row
table yields the empty list. -/
theorem C8_find_empty_vs_list_empty_witness :
    find_contact_by_email "ghost@example.com" [annRow] = Except.error 404 ∧
    get_contacts 5 100 [annRow] = [] :=
  ⟨C8_find_empty_vs_list_empty.2.2.1 "ghost@example.com" [annRow] (by decide),
    C8_find_empty_vs_list_empty.2.2.2 5 100 [annRow] (by decide)⟩

/-- C9: updating an id held by no stored row yields the 404 error and leaves
the table exactly as it was, at both the route and the repository level. -/
theorem C9_update_nonexistent_no_write (contact_id : Nat) (body : ContactModel)
    (db : List Contact) (habs : ∀ c ∈ db, c.id ≠ contact_id) :
    routes.update_contact contact_id body db = (Except.error 404, db) ∧
    repository.update_contact contact_id body db = (none, db) :=
  ⟨routes_update_absent contact_id body db habs,
    repo_update_absent contact_id body db habs⟩

/-- C9 witness: updating id 2 over a table holding only id 1. -/
theorem C9_update_nonexistent_no_write_witness :
    routes.update_contact 2 annBody [annRow] = (Except.error 404, [annRow]) ∧
    repository.update_contact 2 annBody [annRow] = (none, [annRow]) :=
  C9_update_nonexistent_no_write 2 annBody [annRow] (by decide)

/-- C10: the existence check runs before the uniqueness checks: an update on
an id held by no stored row answers 404 — never 409 — even when the
submitted email or phone number duplicates a stored row. -/
theorem C10_existence_check_precedes_uniqueness (contact_id : Nat)
    (body : ContactModel) (db : List Contact)
    (habs : ∀ c ∈ db, c.id ≠ contact_id)
    (hdup : ∃ c ∈ db, c.email = body.email ∨ c.contact_number = body.contact_number) :
    (routes.update_contact contact_id body db).1 = Except.error 404 ∧
    (routes.update_contact contact_id body db).1 ≠ Except.error 409 := by
  have h404 := routes_update_absent contact_id body db habs
  rw [h404]
  exact ⟨rfl, by simp⟩

/-- C10 witness: updating absent id 2 with id 1's own email answers 404. -/
theorem C10_existence_check_precedes_uniqueness_witness :
    (routes.update_contact 2 annBody [annRow]).1 = Except.error 404 ∧
    (routes.update_contact 2 annBody [annRow]).1 ≠ Except.error 409 :=
  C10_existence_check_precedes_uniqueness 2 annBody [annRow] (by decide)
    ⟨annRow, by decide, Or.inl (by decide)⟩
